import Mathlib

/-!
Verification of the DP aggregation parameter-derivation and pipeline-composition
engine of `distributed_dp/fl_utils.py` (`build_aggregator`, `pad_dim`,
`get_total_dim`), as a shallow embedding.

Real-valued quantities are modelled over `ℚ` (the code's float arithmetic is
treated as exact real arithmetic).  External collaborators consumed by the
engine — the privacy accountant (`accounting_utils.get_gauss_noise_multiplier`,
`accounting_utils.ddgauss_params`) and the real square root (`np.sqrt`) — are
parameters of the embedding (`Ext`), since their outputs are opaque to this
engine.  Aggregator factories are modelled as an inductive syntax tree
recording exactly which factory constructors were applied with which
arguments, in which nesting order.
-/

/-- Shapes of the tensors in a client template; each shape is a list of
dimension sizes.  Mirrors the `client_template` argument. -/
abbrev ClientTemplate := List (List Nat)

/-- `get_total_dim(client_template)`: `sum(np.prod(x.shape) for x in client_template)`. -/
def get_total_dim (client_template : ClientTemplate) : Nat :=
  (client_template.map (fun s => s.prod)).sum

/-- `pad_dim(dim)`: `np.math.pow(2, np.ceil(np.log2(dim)))`, i.e. `2 ^ ⌈log₂ dim⌉`,
over the integers (`Nat.clog 2 dim = ⌈log₂ dim⌉` for `dim ≥ 1`). -/
def pad_dim (dim : Nat) : Nat :=
  2 ^ Nat.clog 2 dim

/-- The `compression_flags` dict fields read by `build_aggregator`.
`k_stddevs = none` models a Python `None` (the code applies `or 4`). -/
structure CompressionFlags where
  num_bits : Int
  beta : Rat
  k_stddevs : Option Rat
deriving DecidableEq, Repr

/-- The `dp_flags` dict fields read by `build_aggregator`. -/
structure DPFlags where
  l2_norm_clip : Option Rat
  epsilon : Option Rat
  delta : Option Rat
  dp_mechanism : String
deriving DecidableEq, Repr

/-- Python's `x or d` idiom on an optional number: `None` and `0` are falsy and
give the default `d`. -/
def orDefault (x : Option Rat) (d : Rat) : Rat :=
  match x with
  | none => d
  | some v => if v = 0 then d else v

/-- The arguments with which `ddpquery_utils.build_ddp_query` is invoked in the
`ddgauss` branch; the query object is opaque to `build_aggregator`, so it is
modelled by its construction arguments. -/
structure DDPQuery where
  mechanism : String
  local_stddev : Rat
  l2_norm_bound : Rat
  beta : Rat
  padded_dim : Nat
  scale : Rat
  client_template : ClientTemplate
deriving DecidableEq, Repr

/-- Aggregation factories as a syntax tree: each constructor records one
factory-construction call of `build_aggregator` and its nesting. -/
inductive AggFactory where
  /-- `tff.aggregators.SumFactory()` -/
  | sumFactory : AggFactory
  /-- `modular_clipping_factory.ModularClippingSumFactory(lo, hi, inner)` -/
  | modularClippingSum (clip_range_lower clip_range_upper : Rat)
      (inner : AggFactory) : AggFactory
  /-- `tff.aggregators.DifferentiallyPrivateFactory(query, record_agg)` -/
  | dpQueryFactory (query : DDPQuery) (record_agg : AggFactory) : AggFactory
  /-- `tff.aggregators.DifferentiallyPrivateFactory.gaussian_fixed(...)` -/
  | gaussianFixed (noise_multiplier : Rat) (clients_per_round : Nat)
      (clip : Rat) : AggFactory
  /-- `tff.aggregators.clipping_factory(norm, inner)` -/
  | clipping (clipping_norm : Rat) (inner : AggFactory) : AggFactory
  /-- `tff.aggregators.UnweightedMeanFactory()` with no inner factory -/
  | unweightedMean : AggFactory
  /-- `tff.aggregators.UnweightedMeanFactory(value_sum_factory=inner)` -/
  | unweightedMeanOver (value_sum : AggFactory) : AggFactory
deriving DecidableEq, Repr

/-- The shared DP parameters recorded in `params_dict` (lines 59–69). -/
structure BaseParams where
  epsilon : Rat
  delta : Rat
  clip : Rat
  dim : Nat
  sampling_rate : Rat
  mechanism : String
  num_clients : Nat
  num_clients_per_round : Nat
  num_rounds : Nat
deriving DecidableEq, Repr

/-- The `discrete_params_dict` recorded by the `ddgauss` branch (lines 121–134). -/
structure DiscreteParams where
  bits : Int
  beta : Rat
  dim : Nat
  padded_dim : Nat
  gamma : Rat
  scale : Rat
  k_stddevs : Rat
  local_stddev : Rat
  mechanism : String
  inflated_l2 : Rat
  noise_mult_clip : Rat
  noise_mult_inflated : Rat
deriving DecidableEq, Repr

/-- The `params_dict` returned by `build_aggregator`, by branch. -/
inductive ParamsDict where
  /-- The no-DP branch returns `{'clip': clip}` only. -/
  | noDP (clip : Option Rat) : ParamsDict
  /-- The `gaussian` branch returns the shared dict plus `noise_mult`. -/
  | gaussianParams (base : BaseParams) (noise_mult : Rat) : ParamsDict
  /-- The `ddgauss` branch returns the shared dict updated with the discrete dict. -/
  | ddgaussParams (base : BaseParams) (disc : DiscreteParams) : ParamsDict
deriving DecidableEq, Repr

/-- Failures raised by `build_aggregator`: the `assert` statements (the spec's
`InvalidBudget`) and the `ValueError` for an unknown mechanism (the spec's
`UnsupportedMechanism`). -/
inductive BuildError where
  | invalidBudget (msg : String) : BuildError
  | unsupportedMechanism (msg : String) : BuildError
deriving DecidableEq, Repr

/-- `true` exactly when the result is an `InvalidBudget` failure. -/
def isInvalidBudget {α : Type} : Except BuildError α → Bool
  | .error (.invalidBudget _) => true
  | _ => false

/-- `true` exactly when the result is an `UnsupportedMechanism` failure. -/
def isUnsupportedMechanism {α : Type} : Except BuildError α → Bool
  | .error (.unsupportedMechanism _) => true
  | _ => false

/-- `true` when the optional clip is missing or non-positive. -/
def clipMissingOrNonpos : Option Rat → Bool
  | none => true
  | some c => decide (c ≤ 0)

/-- Python's `2 ** z` for an integer exponent `z`, as an exact rational
(Python yields an `int` for `z ≥ 0` and a `float` `1/2^(-z)` for `z < 0`). -/
def pow2q (z : Int) : Rat :=
  if 0 ≤ z then ((2 ^ z.toNat : Nat) : Rat) else 1 / ((2 ^ (-z).toNat : Nat) : Rat)

/-- Modelled from the spec: `accounting_utils.rounded_l2_norm_bound` (the
Privacy Accountant's `rounded_l2_inflation(effective_clip, beta, dim)`), whose
source file is not available.  Per the spec it "accounts for the L2-norm
increase caused by rounding each coordinate to the quantization grid, given
`beta` and `padded_dim`": rounding moves each of the `dim` coordinates by at
most one grid step, inflating the L2 norm by at most `√dim`, so the bound is
modelled as the input norm plus the (integer) square root of `dim`; `beta` only
tightens the inflation term and is kept as an argument.  The claims depend only
on the bound being the input norm plus a nonnegative inflation. -/
def rounded_l2_norm_bound (l2_norm_bound : Rat) (beta : Rat) (dim : Nat) : Rat :=
  l2_norm_bound + ((Nat.sqrt dim : Nat) : Rat)

/-- Python's `str.lower()` applied to the mechanism string: each character is
mapped to its lowercase form (for the ASCII mechanism names this agrees with
`String.toLower`, but unlike it reduces in the kernel). -/
def strLower (s : String) : String := ⟨s.data.map Char.toLower⟩

/-- The external collaborators consumed by `build_aggregator`: the privacy
accountant's two derivation routines (spec §6) and the real square root
`np.sqrt` (irrational in general, hence abstract over `ℚ`). -/
structure Externals where
  /-- `accounting_utils.get_gauss_noise_multiplier(target_eps, target_delta,
  target_sampling_rate, steps)` -/
  get_gauss_noise_multiplier : Rat → Rat → Rat → Nat → Rat
  /-- `accounting_utils.ddgauss_params(q, epsilon, l2_clip_norm, bits,
  num_clients, dim, delta, beta, steps, k)` returning `(gamma, local_stddev)` -/
  ddgauss_params : Rat → Rat → Rat → Int → Nat → Nat → Rat → Rat → Nat → Rat → Rat × Rat
  /-- `np.sqrt` applied to a client count -/
  sqrt : Nat → Rat

/-- Shallow embedding of `build_aggregator(compression_flags, dp_flags,
num_clients, num_clients_per_round, num_rounds, client_template)`
(`fl_utils.py` lines 36–174), parameterised by the external collaborators. -/
def build_aggregator (ext : Externals) (compression_flags : CompressionFlags)
    (dp_flags : DPFlags) (num_clients num_clients_per_round num_rounds : Nat)
    (client_template : ClientTemplate) :
    Except BuildError (AggFactory × ParamsDict) :=
  let clip := dp_flags.l2_norm_clip
  -- No DP (but still do the clipping if necessary).
  if dp_flags.epsilon = none ∨ dp_flags.epsilon = some (-1) then
    match clip with
    | none => .ok (.unweightedMean, .noDP none)
    | some c =>
      if 0 < c then .ok (.clipping c .unweightedMean, .noDP (some c))
      else .error (.invalidBudget "Norm clip must be positive.")
  else
    match dp_flags.epsilon with
    | none => .error (.invalidBudget "Epsilon should be positive.")
    | some epsilon =>
      -- Parameters for DP
      if epsilon ≤ 0 then .error (.invalidBudget "Epsilon should be positive.")
      else match clip with
      | none => .error (.invalidBudget "Clip must be positive.")
      | some c =>
        if c ≤ 0 then .error (.invalidBudget "Clip must be positive.")
        else
          let sampling_rate : Rat := (num_clients_per_round : Rat) / (num_clients : Rat)
          -- Default to delta = 1 / N.
          let delta := orDefault dp_flags.delta (1 / (num_clients : Rat))
          let mechanism := strLower dp_flags.dp_mechanism
          let dim := get_total_dim client_template
          let base : BaseParams :=
            ⟨epsilon, delta, c, dim, sampling_rate, mechanism,
             num_clients, num_clients_per_round, num_rounds⟩
          -- Baseline: continuous Gaussian.
          if mechanism = "gaussian" then
            let noise_mult :=
              ext.get_gauss_noise_multiplier epsilon delta sampling_rate num_rounds
            .ok (.gaussianFixed noise_mult num_clients_per_round c,
                 .gaussianParams base noise_mult)
          -- Distributed Discrete Gaussian
          else if mechanism = "ddgauss" then
            let padded_dim := pad_dim dim
            let k_stddevs := orDefault compression_flags.k_stddevs 4
            let beta := compression_flags.beta
            let bits := compression_flags.num_bits
            -- Modular clipping has exclusive upper bound.
            let mod_clip_lo := -(pow2q (bits - 1))
            let mod_clip_hi := pow2q (bits - 1)
            let acc := ext.ddgauss_params sampling_rate epsilon c bits
              num_clients_per_round padded_dim delta beta num_rounds k_stddevs
            let gamma := acc.1
            let local_stddev := acc.2
            let scale := 1 / gamma
            let central_stddev := local_stddev * ext.sqrt num_clients_per_round
            let noise_mult_clip := central_stddev / c
            let inflated_l2 := rounded_l2_norm_bound (c * scale) beta padded_dim / scale
            let noise_mult_inflated := central_stddev / inflated_l2
            let disc : DiscreteParams :=
              ⟨bits, beta, dim, padded_dim, gamma, scale, k_stddevs, local_stddev,
               mechanism, inflated_l2, noise_mult_clip, noise_mult_inflated⟩
            -- Build nested aggregators: sum, then modular clipping, then the
            -- DDP query, then L2 clipping, then the unweighted mean.
            let query : DDPQuery :=
              ⟨mechanism, local_stddev, c, beta, padded_dim, scale, client_template⟩
            .ok (.unweightedMeanOver (.clipping c (.dpQueryFactory query
                   (.modularClippingSum mod_clip_lo mod_clip_hi .sumFactory))),
                 .ddgaussParams base disc)
          else
            .error (.unsupportedMechanism
              ("Unsupported mechanism: " ++ dp_flags.dp_mechanism))

/-- Modelled from the spec: the modular reduction map applied by the
`ModularClippingSumFactory` collaborator (whose source file is not available):
`v ↦ ((v - lo) mod (hi - lo)) + lo` with floored modular arithmetic (for a
positive modulus, Lean's `Int.emod` agrees with Python's floored `%`). -/
def modular_reduce (lo hi v : Int) : Int :=
  (v - lo) % (hi - lo) + lo

/-- A concrete instantiation of the external collaborators (constant accountant
answers, integer square root), used to exercise `build_aggregator` on concrete
inputs. -/
def extDemo : Externals :=
  ⟨fun _ _ _ _ => 1, fun _ _ _ _ _ _ _ _ _ _ => (1, 1), fun _ => 1⟩

/-- The aggregator produced by `build_aggregator` on the demo `ddgauss` input. -/
def aggDemo : AggFactory :=
  .unweightedMeanOver (.clipping 1 (.dpQueryFactory
    ⟨"ddgauss", 1, 1, 1/2, 1, 1, [[1]]⟩ (.modularClippingSum (-8) 8 .sumFactory)))

/-- The shared params produced by `build_aggregator` on the demo `ddgauss` input. -/
def baseDemo : BaseParams := ⟨1, 1/4, 1, 1, 1/2, "ddgauss", 4, 2, 1⟩

/-- The discrete params produced by `build_aggregator` on the demo `ddgauss` input. -/
def discDemo : DiscreteParams := ⟨4, 1/2, 1, 1, 1, 1, 4, 1, "ddgauss", 2, 1, 1/2⟩

lemma build_noDP_none (ext : Externals) (cf : CompressionFlags) (df : DPFlags)
    (N n R : Nat) (tmpl : ClientTemplate)
    (he : df.epsilon = none ∨ df.epsilon = some (-1))
    (hc : df.l2_norm_clip = none) :
    build_aggregator ext cf df N n R tmpl = .ok (.unweightedMean, .noDP none) := by
  simp only [build_aggregator, hc, if_pos he]

lemma build_noDP_clip (ext : Externals) (cf : CompressionFlags) (df : DPFlags)
    (N n R : Nat) (tmpl : ClientTemplate) (c : Rat)
    (he : df.epsilon = none ∨ df.epsilon = some (-1))
    (hc : df.l2_norm_clip = some c) (hcpos : 0 < c) :
    build_aggregator ext cf df N n R tmpl =
      .ok (.clipping c .unweightedMean, .noDP (some c)) := by
  simp only [build_aggregator, hc, if_pos he, if_pos hcpos]

lemma build_noDP_badclip (ext : Externals) (cf : CompressionFlags) (df : DPFlags)
    (N n R : Nat) (tmpl : ClientTemplate) (c : Rat)
    (he : df.epsilon = none ∨ df.epsilon = some (-1))
    (hc : df.l2_norm_clip = some c) (hcneg : ¬ 0 < c) :
    build_aggregator ext cf df N n R tmpl =
      .error (.invalidBudget "Norm clip must be positive.") := by
  simp only [build_aggregator, hc, if_pos he, if_neg hcneg]

lemma not_noDP_cond (df : DPFlags) (e : Rat) (he : df.epsilon = some e)
    (hne : e ≠ -1) : ¬ (df.epsilon = none ∨ df.epsilon = some (-1)) := by
  rw [he]
  rintro (h | h)
  · exact Option.noConfusion h
  · rw [Option.some.injEq] at h
    exact hne h

lemma build_ddgauss_eq (ext : Externals) (cf : CompressionFlags) (df : DPFlags)
    (N n R : Nat) (tmpl : ClientTemplate) (e c : Rat)
    (he : df.epsilon = some e) (hepos : 0 < e)
    (hc : df.l2_norm_clip = some c) (hcpos : 0 < c)
    (hm : strLower df.dp_mechanism = "ddgauss") :
    build_aggregator ext cf df N n R tmpl = .ok
      (.unweightedMeanOver (.clipping c (.dpQueryFactory
          ⟨"ddgauss",
           (ext.ddgauss_params ((n : Rat) / (N : Rat)) e c cf.num_bits n
              (pad_dim (get_total_dim tmpl)) (orDefault df.delta (1 / (N : Rat)))
              cf.beta R (orDefault cf.k_stddevs 4)).2,
           c, cf.beta, pad_dim (get_total_dim tmpl),
           1 / (ext.ddgauss_params ((n : Rat) / (N : Rat)) e c cf.num_bits n
              (pad_dim (get_total_dim tmpl)) (orDefault df.delta (1 / (N : Rat)))
              cf.beta R (orDefault cf.k_stddevs 4)).1, tmpl⟩
          (.modularClippingSum (-(pow2q (cf.num_bits - 1))) (pow2q (cf.num_bits - 1))
            .sumFactory))),
       .ddgaussParams
         ⟨e, orDefault df.delta (1 / (N : Rat)), c, get_total_dim tmpl,
          (n : Rat) / (N : Rat), "ddgauss", N, n, R⟩
         ⟨cf.num_bits, cf.beta, get_total_dim tmpl, pad_dim (get_total_dim tmpl),
          (ext.ddgauss_params ((n : Rat) / (N : Rat)) e c cf.num_bits n
              (pad_dim (get_total_dim tmpl)) (orDefault df.delta (1 / (N : Rat)))
              cf.beta R (orDefault cf.k_stddevs 4)).1,
          1 / (ext.ddgauss_params ((n : Rat) / (N : Rat)) e c cf.num_bits n
              (pad_dim (get_total_dim tmpl)) (orDefault df.delta (1 / (N : Rat)))
              cf.beta R (orDefault cf.k_stddevs 4)).1,
          orDefault cf.k_stddevs 4,
          (ext.ddgauss_params ((n : Rat) / (N : Rat)) e c cf.num_bits n
              (pad_dim (get_total_dim tmpl)) (orDefault df.delta (1 / (N : Rat)))
              cf.beta R (orDefault cf.k_stddevs 4)).2,
          "ddgauss",
          rounded_l2_norm_bound
              (c * (1 / (ext.ddgauss_params ((n : Rat) / (N : Rat)) e c cf.num_bits n
                 (pad_dim (get_total_dim tmpl)) (orDefault df.delta (1 / (N : Rat)))
                 cf.beta R (orDefault cf.k_stddevs 4)).1))
              cf.beta (pad_dim (get_total_dim tmpl)) /
            (1 / (ext.ddgauss_params ((n : Rat) / (N : Rat)) e c cf.num_bits n
               (pad_dim (get_total_dim tmpl)) (orDefault df.delta (1 / (N : Rat)))
               cf.beta R (orDefault cf.k_stddevs 4)).1),
          (ext.ddgauss_params ((n : Rat) / (N : Rat)) e c cf.num_bits n
              (pad_dim (get_total_dim tmpl)) (orDefault df.delta (1 / (N : Rat)))
              cf.beta R (orDefault cf.k_stddevs 4)).2 * ext.sqrt n / c,
          (ext.ddgauss_params ((n : Rat) / (N : Rat)) e c cf.num_bits n
              (pad_dim (get_total_dim tmpl)) (orDefault df.delta (1 / (N : Rat)))
              cf.beta R (orDefault cf.k_stddevs 4)).2 * ext.sqrt n /
            (rounded_l2_norm_bound
              (c * (1 / (ext.ddgauss_params ((n : Rat) / (N : Rat)) e c cf.num_bits n
                 (pad_dim (get_total_dim tmpl)) (orDefault df.delta (1 / (N : Rat)))
                 cf.beta R (orDefault cf.k_stddevs 4)).1))
              cf.beta (pad_dim (get_total_dim tmpl)) /
            (1 / (ext.ddgauss_params ((n : Rat) / (N : Rat)) e c cf.num_bits n
               (pad_dim (get_total_dim tmpl)) (orDefault df.delta (1 / (N : Rat)))
               cf.beta R (orDefault cf.k_stddevs 4)).1))⟩) := by
  have h1 : ¬ ((some e : Option Rat) = none ∨ (some e : Option Rat) = some (-1)) := by
    rintro (h | h)
    · exact Option.noConfusion h
    · rw [Option.some.injEq] at h
      rw [h] at hepos
      norm_num at hepos
  simp only [build_aggregator, he, hc, hm, if_neg h1, if_neg (not_le.mpr hepos),
    if_neg (not_le.mpr hcpos), String.reduceEq, reduceIte]

lemma build_gaussian_eq (ext : Externals) (cf : CompressionFlags) (df : DPFlags)
    (N n R : Nat) (tmpl : ClientTemplate) (e c : Rat)
    (he : df.epsilon = some e) (hepos : 0 < e)
    (hc : df.l2_norm_clip = some c) (hcpos : 0 < c)
    (hm : strLower df.dp_mechanism = "gaussian") :
    build_aggregator ext cf df N n R tmpl = .ok
      (.gaussianFixed
        (ext.get_gauss_noise_multiplier e (orDefault df.delta (1 / (N : Rat)))
          ((n : Rat) / (N : Rat)) R) n c,
       .gaussianParams
         ⟨e, orDefault df.delta (1 / (N : Rat)), c, get_total_dim tmpl,
          (n : Rat) / (N : Rat), "gaussian", N, n, R⟩
         (ext.get_gauss_noise_multiplier e (orDefault df.delta (1 / (N : Rat)))
           ((n : Rat) / (N : Rat)) R)) := by
  have h1 : ¬ ((some e : Option Rat) = none ∨ (some e : Option Rat) = some (-1)) := by
    rintro (h | h)
    · exact Option.noConfusion h
    · rw [Option.some.injEq] at h
      rw [h] at hepos
      norm_num at hepos
  simp only [build_aggregator, he, hc, hm, if_neg h1, if_neg (not_le.mpr hepos),
    if_neg (not_le.mpr hcpos), String.reduceEq, reduceIte]

lemma build_unsupported_eq (ext : Externals) (cf : CompressionFlags) (df : DPFlags)
    (N n R : Nat) (tmpl : ClientTemplate) (e c : Rat)
    (he : df.epsilon = some e) (hepos : 0 < e)
    (hc : df.l2_norm_clip = some c) (hcpos : 0 < c)
    (hm1 : strLower df.dp_mechanism ≠ "gaussian")
    (hm2 : strLower df.dp_mechanism ≠ "ddgauss") :
    build_aggregator ext cf df N n R tmpl =
      .error (.unsupportedMechanism ("Unsupported mechanism: " ++ df.dp_mechanism)) := by
  have h1 : ¬ ((some e : Option Rat) = none ∨ (some e : Option Rat) = some (-1)) := by
    rintro (h | h)
    · exact Option.noConfusion h
    · rw [Option.some.injEq] at h
      rw [h] at hepos
      norm_num at hepos
  simp only [build_aggregator, he, hc, if_neg h1, if_neg (not_le.mpr hepos),
    if_neg (not_le.mpr hcpos), if_neg hm1, if_neg hm2]

lemma build_eps_nonpos (ext : Externals) (cf : CompressionFlags) (df : DPFlags)
    (N n R : Nat) (tmpl : ClientTemplate) (e : Rat)
    (he : df.epsilon = some e) (hne : e ≠ -1) (hle : e ≤ 0) :
    build_aggregator ext cf df N n R tmpl =
      .error (.invalidBudget "Epsilon should be positive.") := by
  have h1 : ¬ ((some e : Option Rat) = none ∨ (some e : Option Rat) = some (-1)) := by
    rintro (h | h)
    · exact Option.noConfusion h
    · rw [Option.some.injEq] at h
      exact hne h
  simp only [build_aggregator, he, if_neg h1, if_pos hle]

lemma build_clip_missing (ext : Externals) (cf : CompressionFlags) (df : DPFlags)
    (N n R : Nat) (tmpl : ClientTemplate) (e : Rat)
    (he : df.epsilon = some e) (hepos : 0 < e)
    (hc : df.l2_norm_clip = none) :
    build_aggregator ext cf df N n R tmpl =
      .error (.invalidBudget "Clip must be positive.") := by
  have h1 : ¬ ((some e : Option Rat) = none ∨ (some e : Option Rat) = some (-1)) := by
    rintro (h | h)
    · exact Option.noConfusion h
    · rw [Option.some.injEq] at h
      rw [h] at hepos
      norm_num at hepos
  simp only [build_aggregator, he, hc, if_neg h1, if_neg (not_le.mpr hepos)]

lemma build_clip_nonpos (ext : Externals) (cf : CompressionFlags) (df : DPFlags)
    (N n R : Nat) (tmpl : ClientTemplate) (e c : Rat)
    (he : df.epsilon = some e) (hepos : 0 < e)
    (hc : df.l2_norm_clip = some c) (hcle : c ≤ 0) :
    build_aggregator ext cf df N n R tmpl =
      .error (.invalidBudget "Clip must be positive.") := by
  have h1 : ¬ ((some e : Option Rat) = none ∨ (some e : Option Rat) = some (-1)) := by
    rintro (h | h)
    · exact Option.noConfusion h
    · rw [Option.some.injEq] at h
      rw [h] at hepos
      norm_num at hepos
  simp only [build_aggregator, he, hc, if_neg h1, if_neg (not_le.mpr hepos), if_pos hcle]

lemma pow2q_eq_zpow (z : Int) : pow2q z = (2 : Rat) ^ z := by
  rcases le_or_lt 0 z with h | h
  · obtain ⟨m, rfl⟩ : ∃ m : Nat, z = (m : Int) := ⟨z.toNat, by omega⟩
    rw [pow2q, if_pos h]
    simp only [Int.toNat_natCast]
    push_cast
    rw [zpow_natCast]
  · obtain ⟨m, rfl⟩ : ∃ m : Nat, z = -(m : Int) := ⟨(-z).toNat, by omega⟩
    rw [pow2q, if_neg (not_le.mpr h)]
    simp only [neg_neg, Int.toNat_natCast]
    push_cast
    rw [zpow_neg, zpow_natCast, one_div]

/-- C5: for every `dim ≥ 1`, `pad_dim dim` is a power of two, is at least
`dim`, is below `2 * dim`, and equals `dim` when `dim` is a power of two. -/
theorem pad_dim_smallest_pow_two (dim : Nat) (h : 1 ≤ dim) :
    (∃ k, pad_dim dim = 2 ^ k) ∧ dim ≤ pad_dim dim ∧ pad_dim dim < 2 * dim ∧
      (∀ k, dim = 2 ^ k → pad_dim dim = dim) := by
  refine ⟨⟨Nat.clog 2 dim, rfl⟩, Nat.le_pow_clog one_lt_two dim, ?_, ?_⟩
  · rcases eq_or_lt_of_le h with h1 | h1
    · rw [← h1]
      norm_num [pad_dim]
    · have h2 := Nat.pow_pred_clog_lt_self one_lt_two h1
      have h3 : 0 < Nat.clog 2 dim := Nat.clog_pos one_lt_two h1
      have h4 : pad_dim dim = 2 * 2 ^ (Nat.clog 2 dim - 1) := by
        rw [pad_dim, ← pow_succ']
        congr 1
        omega
      rw [Nat.pred_eq_sub_one] at h2
      omega
  · intro k hk
    rw [pad_dim, hk, Nat.clog_pow 2 k one_lt_two]

theorem pad_dim_smallest_pow_two_witness :
    1 ≤ 6 ∧ ((∃ k, pad_dim 6 = 2 ^ k) ∧ 6 ≤ pad_dim 6 ∧ pad_dim 6 < 2 * 6 ∧
      (∀ k, 6 = 2 ^ k → pad_dim 6 = 6)) :=
  ⟨by norm_num, pad_dim_smallest_pow_two 6 (by norm_num)⟩

/-- C8: the modular reduction map `v ↦ ((v - lo) mod (hi - lo)) + lo` with
`lo < hi` and floored modulus is the identity on `[lo, hi)` and is periodic
with period `hi - lo`. -/
theorem modular_reduce_idempotent_periodic (lo hi : Int) (h : lo < hi) :
    (∀ v, lo ≤ v → v < hi → modular_reduce lo hi v = v) ∧
    (∀ v k, modular_reduce lo hi (v + k * (hi - lo)) = modular_reduce lo hi v) := by
  constructor
  · intro v h1 h2
    rw [modular_reduce, Int.emod_eq_of_lt (by omega) (by omega)]
    omega
  · intro v k
    rw [modular_reduce, modular_reduce]
    have hrw : v + k * (hi - lo) - lo = v - lo + (hi - lo) * k := by ring
    rw [hrw, Int.add_mul_emod_self_left]

theorem modular_reduce_idempotent_periodic_witness :
    (-8 : Int) < 8 ∧ modular_reduce (-8) 8 5 = 5 ∧
      modular_reduce (-8) 8 (5 + 3 * (8 - -8)) = modular_reduce (-8) 8 5 :=
  ⟨by norm_num,
   (modular_reduce_idempotent_periodic (-8) 8 (by norm_num)).1 5 (by norm_num) (by norm_num),
   (modular_reduce_idempotent_periodic (-8) 8 (by norm_num)).2 5 3⟩

/-- C6: with `epsilon = 0` construction fails with `InvalidBudget`, while the
sentinel `epsilon = -1` (like `epsilon = None`) takes the no-DP branch: an
unweighted-mean aggregator, wrapped in a clipping stage exactly when `clip` is
set, and a set clip must be positive. -/
theorem epsilon_zero_vs_sentinel (ext : Externals) (cf : CompressionFlags)
    (df : DPFlags) (N n R : Nat) (tmpl : ClientTemplate) :
    (df.epsilon = some 0 →
       build_aggregator ext cf df N n R tmpl =
         .error (.invalidBudget "Epsilon should be positive.")) ∧
    ((df.epsilon = none ∨ df.epsilon = some (-1)) →
       (df.l2_norm_clip = none →
          build_aggregator ext cf df N n R tmpl = .ok (.unweightedMean, .noDP none)) ∧
       (∀ c, df.l2_norm_clip = some c → 0 < c →
          build_aggregator ext cf df N n R tmpl =
            .ok (.clipping c .unweightedMean, .noDP (some c))) ∧
       (∀ c, df.l2_norm_clip = some c → ¬ 0 < c →
          build_aggregator ext cf df N n R tmpl =
            .error (.invalidBudget "Norm clip must be positive."))) :=
  ⟨fun h0 => build_eps_nonpos ext cf df N n R tmpl 0 h0 (by norm_num) le_rfl,
   fun he =>
     ⟨fun hc => build_noDP_none ext cf df N n R tmpl he hc,
      fun c hc hcpos => build_noDP_clip ext cf df N n R tmpl c he hc hcpos,
      fun c hc hcneg => build_noDP_badclip ext cf df N n R tmpl c he hc hcneg⟩⟩

theorem epsilon_zero_vs_sentinel_witness :
    build_aggregator extDemo ⟨4, 1/2, none⟩ ⟨some 1, some 0, none, "ddgauss"⟩ 4 2 1 [[1]] =
      .error (.invalidBudget "Epsilon should be positive.") ∧
    build_aggregator extDemo ⟨4, 1/2, none⟩ ⟨some 1, some (-1), none, "ddgauss"⟩ 4 2 1 [[1]] =
      .ok (.clipping 1 .unweightedMean, .noDP (some 1)) :=
  ⟨(epsilon_zero_vs_sentinel extDemo ⟨4, 1/2, none⟩ ⟨some 1, some 0, none, "ddgauss"⟩
      4 2 1 [[1]]).1 rfl,
   ((epsilon_zero_vs_sentinel extDemo ⟨4, 1/2, none⟩ ⟨some 1, some (-1), none, "ddgauss"⟩
      4 2 1 [[1]]).2 (Or.inr rfl)).2.1 1 rfl one_pos⟩

/-- C9: when `epsilon` is `None` or the sentinel `-1`, the result of
`build_aggregator` does not depend on the mechanism string, the compression
flags, `delta`, or the external collaborators; `UnsupportedMechanism` is never
raised on this path; and a successful result's params record holds only the
clip value. -/
theorem no_dp_path_ignores_mechanism_flags (ext ext' : Externals)
    (cf cf' : CompressionFlags) (df : DPFlags) (N n R : Nat) (tmpl : ClientTemplate)
    (mech' : String) (delta' : Option Rat)
    (he : df.epsilon = none ∨ df.epsilon = some (-1)) :
    build_aggregator ext cf df N n R tmpl =
      build_aggregator ext' cf' ⟨df.l2_norm_clip, df.epsilon, delta', mech'⟩ N n R tmpl ∧
    isUnsupportedMechanism (build_aggregator ext cf df N n R tmpl) = false ∧
    (∀ agg p, build_aggregator ext cf df N n R tmpl = .ok (agg, p) →
       p = .noDP df.l2_norm_clip) := by
  rcases hclip : df.l2_norm_clip with _ | c
  · rw [build_noDP_none ext cf df N n R tmpl he hclip,
      build_noDP_none ext' cf' ⟨none, df.epsilon, delta', mech'⟩ N n R tmpl he rfl]
    refine ⟨rfl, rfl, fun agg p hp => ?_⟩
    simp only [Except.ok.injEq, Prod.mk.injEq] at hp
    exact hp.2.symm
  · by_cases hcp : 0 < c
    · rw [build_noDP_clip ext cf df N n R tmpl c he hclip hcp,
        build_noDP_clip ext' cf' ⟨some c, df.epsilon, delta', mech'⟩ N n R tmpl c he rfl hcp]
      refine ⟨rfl, rfl, fun agg p hp => ?_⟩
      simp only [Except.ok.injEq, Prod.mk.injEq] at hp
      exact hp.2.symm
    · rw [build_noDP_badclip ext cf df N n R tmpl c he hclip hcp,
        build_noDP_badclip ext' cf' ⟨some c, df.epsilon, delta', mech'⟩ N n R tmpl c he rfl hcp]
      exact ⟨rfl, rfl, fun agg p hp => Except.noConfusion hp⟩

theorem no_dp_path_ignores_mechanism_flags_witness :
    build_aggregator extDemo ⟨4, 1/2, none⟩ ⟨some 1, some (-1), none, "ddgauss"⟩ 4 2 1 [[1]] =
      build_aggregator extDemo ⟨7, 3/4, some 2⟩ ⟨some 1, some (-1), some (1/5), "mystery"⟩
        4 2 1 [[1]] ∧
    isUnsupportedMechanism (build_aggregator extDemo ⟨4, 1/2, none⟩
      ⟨some 1, some (-1), none, "ddgauss"⟩ 4 2 1 [[1]]) = false ∧
    (∀ agg p, build_aggregator extDemo ⟨4, 1/2, none⟩ ⟨some 1, some (-1), none, "ddgauss"⟩
        4 2 1 [[1]] = .ok (agg, p) → p = .noDP (some 1)) :=
  no_dp_path_ignores_mechanism_flags extDemo extDemo ⟨4, 1/2, none⟩ ⟨7, 3/4, some 2⟩
    ⟨some 1, some (-1), none, "ddgauss"⟩ 4 2 1 [[1]] "mystery" (some (1/5)) (Or.inr rfl)

/-- C4 counterexample: with a positive epsilon and positive clip, the mechanism
string `"none"` does raise `UnsupportedMechanism` (there is no `none` branch on
the DP path), contradicting the claim that `none` is accepted. -/
theorem mechanism_none_raises_cex :
    build_aggregator extDemo ⟨4, 1/2, none⟩ ⟨some 1, some 1, none, "none"⟩ 4 2 1 [[1]] =
      .error (.unsupportedMechanism "Unsupported mechanism: none") :=
  build_unsupported_eq extDemo ⟨4, 1/2, none⟩ ⟨some 1, some 1, none, "none"⟩ 4 2 1 [[1]]
    1 1 rfl one_pos rfl one_pos (by decide) (by decide)

/-- C4 amended: with positive epsilon and positive clip, `build_aggregator`
raises `UnsupportedMechanism` — with the supplied mechanism string echoed
verbatim in the message — if and only if the lowercased mechanism string is
neither `"gaussian"` nor `"ddgauss"` (so `"none"` also raises on this path). -/
theorem unsupported_mechanism_iff_amended (ext : Externals) (cf : CompressionFlags)
    (df : DPFlags) (N n R : Nat) (tmpl : ClientTemplate) (e c : Rat)
    (he : df.epsilon = some e) (hepos : 0 < e)
    (hc : df.l2_norm_clip = some c) (hcpos : 0 < c) :
    build_aggregator ext cf df N n R tmpl =
        .error (.unsupportedMechanism ("Unsupported mechanism: " ++ df.dp_mechanism)) ↔
      (strLower df.dp_mechanism ≠ "gaussian" ∧ strLower df.dp_mechanism ≠ "ddgauss") := by
  constructor
  · intro hbuild
    by_cases h1 : strLower df.dp_mechanism = "gaussian"
    · rw [build_gaussian_eq ext cf df N n R tmpl e c he hepos hc hcpos h1] at hbuild
      exact Except.noConfusion hbuild
    · by_cases h2 : strLower df.dp_mechanism = "ddgauss"
      · rw [build_ddgauss_eq ext cf df N n R tmpl e c he hepos hc hcpos h2] at hbuild
        exact Except.noConfusion hbuild
      · exact ⟨h1, h2⟩
  · rintro ⟨h1, h2⟩
    exact build_unsupported_eq ext cf df N n R tmpl e c he hepos hc hcpos h1 h2

theorem unsupported_mechanism_iff_amended_witness :
    build_aggregator extDemo ⟨4, 1/2, none⟩ ⟨some 1, some 1, none, "Fancy"⟩ 4 2 1 [[1]] =
      .error (.unsupportedMechanism "Unsupported mechanism: Fancy") :=
  (unsupported_mechanism_iff_amended extDemo ⟨4, 1/2, none⟩
    ⟨some 1, some 1, none, "Fancy"⟩ 4 2 1 [[1]] 1 1 rfl one_pos rfl one_pos).mpr
    ⟨by decide, by decide⟩

/-- C3 counterexample: with a DP mechanism selected, `delta = 2 ∉ (0,1]` and
`sampling_rate = 8/4 = 2 ∉ (0,1]`, construction nevertheless succeeds — the
code validates only `epsilon` and `clip`, so the claimed `InvalidBudget`
failures for bad `delta`, `bits` and `sampling_rate` do not occur. -/
theorem invalid_budget_not_checked_cex :
    build_aggregator extDemo ⟨0, 1/2, none⟩ ⟨some 1, some 1, some 2, "gaussian"⟩ 4 8 1 [[1]] =
      .ok (.gaussianFixed 1 8 1, .gaussianParams ⟨1, 2, 1, 1, 2, "gaussian", 4, 8, 1⟩ 1) ∧
    isInvalidBudget (build_aggregator extDemo ⟨0, 1/2, none⟩
      ⟨some 1, some 1, some 2, "gaussian"⟩ 4 8 1 [[1]]) = false := by
  have h := build_gaussian_eq extDemo ⟨0, 1/2, none⟩ ⟨some 1, some 1, some 2, "gaussian"⟩
    4 8 1 [[1]] 1 1 rfl one_pos rfl one_pos (by decide)
  rw [h]
  refine ⟨?_, rfl⟩
  norm_num [extDemo, orDefault, get_total_dim]

/-- C3 amended: on the DP path (epsilon set and not the `-1` sentinel),
`build_aggregator` fails with `InvalidBudget` exactly when `epsilon ≤ 0` or the
clip is missing or non-positive; `bits`, `sampling_rate` and `delta` are never
validated. -/
theorem invalid_budget_iff_amended (ext : Externals) (cf : CompressionFlags)
    (df : DPFlags) (N n R : Nat) (tmpl : ClientTemplate) (e : Rat)
    (he : df.epsilon = some e) (hne : e ≠ -1) :
    isInvalidBudget (build_aggregator ext cf df N n R tmpl) =
      (decide (e ≤ 0) || clipMissingOrNonpos df.l2_norm_clip) := by
  by_cases hle : e ≤ 0
  · rw [build_eps_nonpos ext cf df N n R tmpl e he hne hle]
    simp [isInvalidBudget, hle]
  · have hepos : 0 < e := not_le.mp hle
    rcases hclip : df.l2_norm_clip with _ | c
    · rw [build_clip_missing ext cf df N n R tmpl e he hepos hclip]
      simp [isInvalidBudget, clipMissingOrNonpos, hle]
    · by_cases hcle : c ≤ 0
      · rw [build_clip_nonpos ext cf df N n R tmpl e c he hepos hclip hcle]
        simp [isInvalidBudget, clipMissingOrNonpos, hle, hcle]
      · have hcpos : 0 < c := not_le.mp hcle
        by_cases h1 : strLower df.dp_mechanism = "gaussian"
        · rw [build_gaussian_eq ext cf df N n R tmpl e c he hepos hclip hcpos h1]
          simp [isInvalidBudget, clipMissingOrNonpos, hle, hcle]
        · by_cases h2 : strLower df.dp_mechanism = "ddgauss"
          · rw [build_ddgauss_eq ext cf df N n R tmpl e c he hepos hclip hcpos h2]
            simp [isInvalidBudget, clipMissingOrNonpos, hle, hcle]
          · rw [build_unsupported_eq ext cf df N n R tmpl e c he hepos hclip hcpos h1 h2]
            simp [isInvalidBudget, clipMissingOrNonpos, hle, hcle]

theorem invalid_budget_iff_amended_witness :
    isInvalidBudget (build_aggregator extDemo ⟨0, 1/2, none⟩
        ⟨some 1, some 1, some 2, "gaussian"⟩ 4 8 1 [[1]]) =
      (decide ((1 : Rat) ≤ 0) || clipMissingOrNonpos (some 1)) :=
  invalid_budget_iff_amended extDemo ⟨0, 1/2, none⟩ ⟨some 1, some 1, some 2, "gaussian"⟩
    4 8 1 [[1]] 1 rfl (by norm_num)

/-- C2: a successful `ddgauss` construction composes, innermost to outermost:
a plain sum; a modular-sum stage on `[-2^(bits-1), 2^(bits-1))`; the DP-query
stage built from the local stddev, the clip, `beta`, the padded dimension and
the scale; an L2-clipping stage with norm `clip`; and an outermost
unweighted-mean stage. -/
theorem ddgauss_stage_order (ext : Externals) (cf : CompressionFlags)
    (df : DPFlags) (N n R : Nat) (tmpl : ClientTemplate) (e c : Rat)
    (he : df.epsilon = some e) (hepos : 0 < e)
    (hc : df.l2_norm_clip = some c) (hcpos : 0 < c)
    (hm : strLower df.dp_mechanism = "ddgauss") :
    ∃ p : ParamsDict,
      build_aggregator ext cf df N n R tmpl = .ok
        (.unweightedMeanOver (.clipping c (.dpQueryFactory
            ⟨"ddgauss",
             (ext.ddgauss_params ((n : Rat) / (N : Rat)) e c cf.num_bits n
                (pad_dim (get_total_dim tmpl)) (orDefault df.delta (1 / (N : Rat)))
                cf.beta R (orDefault cf.k_stddevs 4)).2,
             c, cf.beta, pad_dim (get_total_dim tmpl),
             1 / (ext.ddgauss_params ((n : Rat) / (N : Rat)) e c cf.num_bits n
                (pad_dim (get_total_dim tmpl)) (orDefault df.delta (1 / (N : Rat)))
                cf.beta R (orDefault cf.k_stddevs 4)).1, tmpl⟩
            (.modularClippingSum (-((2 : Rat) ^ (cf.num_bits - 1)))
              ((2 : Rat) ^ (cf.num_bits - 1)) .sumFactory))), p) := by
  rw [build_ddgauss_eq ext cf df N n R tmpl e c he hepos hc hcpos hm, pow2q_eq_zpow]
  exact ⟨_, rfl⟩

theorem ddgauss_stage_order_witness :
    ∃ p : ParamsDict,
      build_aggregator extDemo ⟨4, 1/2, none⟩ ⟨some 1, some 1, none, "DDGauss"⟩ 4 2 1 [[1]] =
        .ok
          (.unweightedMeanOver (.clipping 1 (.dpQueryFactory
              ⟨"ddgauss",
               (extDemo.ddgauss_params ((2 : Rat) / (4 : Rat)) 1 1 4 2
                  (pad_dim (get_total_dim [[1]])) (orDefault none (1 / (4 : Rat)))
                  (1/2) 1 (orDefault none 4)).2,
               1, 1/2, pad_dim (get_total_dim [[1]]),
               1 / (extDemo.ddgauss_params ((2 : Rat) / (4 : Rat)) 1 1 4 2
                  (pad_dim (get_total_dim [[1]])) (orDefault none (1 / (4 : Rat)))
                  (1/2) 1 (orDefault none 4)).1, [[1]]⟩
              (.modularClippingSum (-((2 : Rat) ^ ((4 : Int) - 1)))
                ((2 : Rat) ^ ((4 : Int) - 1)) .sumFactory))), p) :=
  ddgauss_stage_order extDemo ⟨4, 1/2, none⟩ ⟨some 1, some 1, none, "DDGauss"⟩ 4 2 1 [[1]]
    1 1 rfl one_pos rfl one_pos (by decide)

lemma build_demo_ddgauss :
    build_aggregator extDemo ⟨4, 1/2, none⟩ ⟨some 1, some 1, none, "ddgauss"⟩ 4 2 1 [[1]] =
      .ok (aggDemo, .ddgaussParams baseDemo discDemo) := by
  rw [build_ddgauss_eq extDemo ⟨4, 1/2, none⟩ ⟨some 1, some 1, none, "ddgauss"⟩ 4 2 1 [[1]]
    1 1 rfl one_pos rfl one_pos (by decide)]
  norm_num [aggDemo, baseDemo, discDemo, extDemo, orDefault, get_total_dim, pad_dim,
    rounded_l2_norm_bound, pow2q, Nat.clog_one_right]
  decide

/-- C1: on every successful `ddgauss` construction, the modular range is
`[-2^(bits-1), 2^(bits-1))`, `gamma` and `local_stddev` are the accountant's
values, `scale = 1/gamma`, and the two noise multipliers are
`central_stddev / clip` and `central_stddev / inflated_l2` with
`central_stddev = local_stddev * sqrt(num_clients_per_round)`. -/
theorem ddgauss_derived_params (ext : Externals) (cf : CompressionFlags) (df : DPFlags)
    (N n R : Nat) (tmpl : ClientTemplate) (e c : Rat)
    (agg : AggFactory) (base : BaseParams) (d : DiscreteParams)
    (he : df.epsilon = some e) (hepos : 0 < e)
    (hc : df.l2_norm_clip = some c) (hcpos : 0 < c)
    (hm : strLower df.dp_mechanism = "ddgauss")
    (hok : build_aggregator ext cf df N n R tmpl = .ok (agg, .ddgaussParams base d)) :
    (∃ q inner, agg = .unweightedMeanOver (.clipping c (.dpQueryFactory q
        (.modularClippingSum (-((2 : Rat) ^ (cf.num_bits - 1)))
          ((2 : Rat) ^ (cf.num_bits - 1)) inner)))) ∧
    d.gamma = (ext.ddgauss_params base.sampling_rate e c cf.num_bits n d.padded_dim
        base.delta cf.beta R d.k_stddevs).1 ∧
    d.local_stddev = (ext.ddgauss_params base.sampling_rate e c cf.num_bits n d.padded_dim
        base.delta cf.beta R d.k_stddevs).2 ∧
    d.scale = 1 / d.gamma ∧
    d.noise_mult_clip = d.local_stddev * ext.sqrt n / c ∧
    d.noise_mult_inflated = d.local_stddev * ext.sqrt n / d.inflated_l2 := by
  rw [build_ddgauss_eq ext cf df N n R tmpl e c he hepos hc hcpos hm] at hok
  simp only [Except.ok.injEq, Prod.mk.injEq] at hok
  obtain ⟨hagg, hp⟩ := hok
  injection hp with hbase hd
  subst hagg hbase hd
  exact ⟨⟨_, _, by rw [pow2q_eq_zpow]⟩, rfl, rfl, rfl, rfl, rfl⟩

theorem ddgauss_derived_params_witness :
    (∃ q inner, aggDemo = .unweightedMeanOver (.clipping 1 (.dpQueryFactory q
        (.modularClippingSum (-((2 : Rat) ^ ((4 : Int) - 1)))
          ((2 : Rat) ^ ((4 : Int) - 1)) inner)))) ∧
    discDemo.gamma = (extDemo.ddgauss_params baseDemo.sampling_rate 1 1 4 2
        discDemo.padded_dim baseDemo.delta (1/2) 1 discDemo.k_stddevs).1 ∧
    discDemo.local_stddev = (extDemo.ddgauss_params baseDemo.sampling_rate 1 1 4 2
        discDemo.padded_dim baseDemo.delta (1/2) 1 discDemo.k_stddevs).2 ∧
    discDemo.scale = 1 / discDemo.gamma ∧
    discDemo.noise_mult_clip = discDemo.local_stddev * extDemo.sqrt 2 / 1 ∧
    discDemo.noise_mult_inflated = discDemo.local_stddev * extDemo.sqrt 2 / discDemo.inflated_l2 :=
  ddgauss_derived_params extDemo ⟨4, 1/2, none⟩ ⟨some 1, some 1, none, "ddgauss"⟩ 4 2 1 [[1]]
    1 1 aggDemo baseDemo discDemo rfl one_pos rfl one_pos (by decide) build_demo_ddgauss

lemma le_inflated (c gamma beta : Rat) (dim : Nat) (hc : 0 < c) (hg : 0 < gamma) :
    c ≤ rounded_l2_norm_bound (c * (1 / gamma)) beta dim / (1 / gamma) := by
  have hg' : (0 : Rat) < 1 / gamma := by positivity
  rw [rounded_l2_norm_bound, le_div_iff₀ hg']
  have hs : (0 : Rat) ≤ ((Nat.sqrt dim : Nat) : Rat) := Nat.cast_nonneg _
  linarith

/-- C7: on every successful `ddgauss` construction (with positive `beta`,
a positive accountant `gamma`, a nonnegative local stddev and a nonnegative
square root), the inflated L2 bound is at least the clip, hence
`noise_mult_inflated ≤ noise_mult_clip`. -/
theorem noise_mult_inflated_le_clip (ext : Externals) (cf : CompressionFlags) (df : DPFlags)
    (N n R : Nat) (tmpl : ClientTemplate) (e c : Rat)
    (agg : AggFactory) (base : BaseParams) (d : DiscreteParams)
    (he : df.epsilon = some e) (hepos : 0 < e)
    (hc : df.l2_norm_clip = some c) (hcpos : 0 < c)
    (hm : strLower df.dp_mechanism = "ddgauss")
    (hok : build_aggregator ext cf df N n R tmpl = .ok (agg, .ddgaussParams base d))
    (hbeta : 0 < cf.beta) (hgamma : 0 < d.gamma)
    (hsigma : 0 ≤ d.local_stddev) (hsqrt : 0 ≤ ext.sqrt n) :
    c ≤ d.inflated_l2 ∧ d.noise_mult_inflated ≤ d.noise_mult_clip := by
  rw [build_ddgauss_eq ext cf df N n R tmpl e c he hepos hc hcpos hm] at hok
  simp only [Except.ok.injEq, Prod.mk.injEq] at hok
  obtain ⟨hagg, hp⟩ := hok
  injection hp with hbase hd
  subst hd
  have key : c ≤ rounded_l2_norm_bound
      (c * (1 / (ext.ddgauss_params ((n : Rat) / (N : Rat)) e c cf.num_bits n
        (pad_dim (get_total_dim tmpl)) (orDefault df.delta (1 / (N : Rat)))
        cf.beta R (orDefault cf.k_stddevs 4)).1))
      cf.beta (pad_dim (get_total_dim tmpl)) /
      (1 / (ext.ddgauss_params ((n : Rat) / (N : Rat)) e c cf.num_bits n
        (pad_dim (get_total_dim tmpl)) (orDefault df.delta (1 / (N : Rat)))
        cf.beta R (orDefault cf.k_stddevs 4)).1) :=
    le_inflated c _ cf.beta (pad_dim (get_total_dim tmpl)) hcpos hgamma
  exact ⟨key, div_le_div_of_nonneg_left (mul_nonneg hsigma hsqrt) hcpos key⟩

theorem noise_mult_inflated_le_clip_witness :
    (0 : Rat) < 1/2 ∧ (0 : Rat) < discDemo.gamma ∧
    (1 ≤ discDemo.inflated_l2 ∧ discDemo.noise_mult_inflated ≤ discDemo.noise_mult_clip) :=
  ⟨by norm_num, by norm_num [discDemo],
   noise_mult_inflated_le_clip extDemo ⟨4, 1/2, none⟩ ⟨some 1, some 1, none, "ddgauss"⟩
     4 2 1 [[1]] 1 1 aggDemo baseDemo discDemo rfl one_pos rfl one_pos (by decide)
     build_demo_ddgauss (by norm_num) (by norm_num [discDemo]) (by norm_num [discDemo])
     (by norm_num [extDemo])⟩

/-- C10: on the DP path, a missing or zero `delta` is silently replaced by
`1/num_clients`; the defaulted value is both recorded in the returned params
and passed to the privacy accountant (on either mechanism branch). -/
theorem delta_default_recorded_and_passed (ext : Externals) (cf : CompressionFlags)
    (df : DPFlags) (N n R : Nat) (tmpl : ClientTemplate) (e c : Rat)
    (he : df.epsilon = some e) (hepos : 0 < e)
    (hc : df.l2_norm_clip = some c) (hcpos : 0 < c)
    (hd : df.delta = none ∨ df.delta = some 0) :
    (∀ agg base nm,
       build_aggregator ext cf df N n R tmpl = .ok (agg, .gaussianParams base nm) →
       base.delta = 1 / (N : Rat) ∧
       nm = ext.get_gauss_noise_multiplier e (1 / (N : Rat)) ((n : Rat) / (N : Rat)) R) ∧
    (∀ agg base d,
       build_aggregator ext cf df N n R tmpl = .ok (agg, .ddgaussParams base d) →
       base.delta = 1 / (N : Rat) ∧
       d.gamma = (ext.ddgauss_params ((n : Rat) / (N : Rat)) e c cf.num_bits n
           (pad_dim (get_total_dim tmpl)) (1 / (N : Rat)) cf.beta R
           (orDefault cf.k_stddevs 4)).1 ∧
       d.local_stddev = (ext.ddgauss_params ((n : Rat) / (N : Rat)) e c cf.num_bits n
           (pad_dim (get_total_dim tmpl)) (1 / (N : Rat)) cf.beta R
           (orDefault cf.k_stddevs 4)).2) := by
  have hdel : orDefault df.delta (1 / (N : Rat)) = 1 / (N : Rat) := by
    rcases hd with h | h
    · rw [h, orDefault]
    · rw [h, orDefault]
      norm_num
  constructor
  · intro agg base nm hok
    by_cases h1 : strLower df.dp_mechanism = "gaussian"
    · rw [build_gaussian_eq ext cf df N n R tmpl e c he hepos hc hcpos h1] at hok
      simp only [Except.ok.injEq, Prod.mk.injEq] at hok
      obtain ⟨hagg, hp⟩ := hok
      injection hp with hbase hnm
      subst hbase hnm
      constructor
      · exact hdel
      · rw [hdel]
    · by_cases h2 : strLower df.dp_mechanism = "ddgauss"
      · rw [build_ddgauss_eq ext cf df N n R tmpl e c he hepos hc hcpos h2] at hok
        simp only [Except.ok.injEq, Prod.mk.injEq] at hok
        exact absurd hok.2 (by intro h; exact ParamsDict.noConfusion h)
      · rw [build_unsupported_eq ext cf df N n R tmpl e c he hepos hc hcpos h1 h2] at hok
        exact Except.noConfusion hok
  · intro agg base d hok
    by_cases h1 : strLower df.dp_mechanism = "gaussian"
    · rw [build_gaussian_eq ext cf df N n R tmpl e c he hepos hc hcpos h1] at hok
      simp only [Except.ok.injEq, Prod.mk.injEq] at hok
      exact absurd hok.2 (by intro h; exact ParamsDict.noConfusion h)
    · by_cases h2 : strLower df.dp_mechanism = "ddgauss"
      · rw [build_ddgauss_eq ext cf df N n R tmpl e c he hepos hc hcpos h2] at hok
        simp only [Except.ok.injEq, Prod.mk.injEq] at hok
        obtain ⟨hagg, hp⟩ := hok
        injection hp with hbase hd'
        subst hbase hd'
        refine ⟨hdel, ?_, ?_⟩
        · rw [hdel]
        · rw [hdel]
      · rw [build_unsupported_eq ext cf df N n R tmpl e c he hepos hc hcpos h1 h2] at hok
        exact Except.noConfusion hok

theorem delta_default_recorded_and_passed_witness :
    baseDemo.delta = 1 / (4 : Rat) ∧
    discDemo.gamma = (extDemo.ddgauss_params ((2 : Rat) / (4 : Rat)) 1 1 4 2
        (pad_dim (get_total_dim [[1]])) (1 / (4 : Rat)) (1/2) 1 (orDefault none 4)).1 ∧
    discDemo.local_stddev = (extDemo.ddgauss_params ((2 : Rat) / (4 : Rat)) 1 1 4 2
        (pad_dim (get_total_dim [[1]])) (1 / (4 : Rat)) (1/2) 1 (orDefault none 4)).2 :=
  (delta_default_recorded_and_passed extDemo ⟨4, 1/2, none⟩
      ⟨some 1, some 1, none, "ddgauss"⟩ 4 2 1 [[1]] 1 1 rfl one_pos rfl one_pos
      (Or.inl rfl)).2 aggDemo baseDemo discDemo build_demo_ddgauss
